import Mathlib

/-!
Shallow embedding of the weather-crawler ingestion pipeline
(`01_sync_data.py`) and dashboard (`02_app.py`).

JSON payloads (the values `json.load` produces) are modelled by `PyVal`.
Python's dynamic failures (`AttributeError` on `.get` of a non-dict,
`TypeError` on `len`/`in`/`float` of unsupported values, sqlite parameter
binding errors) are modelled with `Except String`; an `Except.error`
escaping a function corresponds to an uncaught Python exception.
-/

/-- A parsed JSON / Python value: `None`, `bool`, number (int and float
collapsed into an exact rational), `str`, `list`, `dict`. -/
inductive PyVal where
  | none : PyVal
  | bool : Bool → PyVal
  | num : ℚ → PyVal
  | str : String → PyVal
  | list : List PyVal → PyVal
  | dict : List (String × PyVal) → PyVal

/-- Python truthiness: `None`, `False`, `0`, `""`, `[]`, `{}` are falsy. -/
def PyVal.truthy : PyVal → Bool
  | .none => false
  | .bool b => b
  | .num q => q != 0
  | .str s => s != ""
  | .list xs => !xs.isEmpty
  | .dict fs => !fs.isEmpty

def PyVal.isDict : PyVal → Bool
  | .dict _ => true
  | _ => false

/-- Python `v.get(k, d)`: dictionary lookup with default; calling `.get`
on a non-dict raises `AttributeError`. -/
def PyVal.getD (v : PyVal) (k : String) (d : PyVal) : Except String PyVal :=
  match v with
  | .dict fs => .ok ((fs.lookup k).getD d)
  | _ => .error "AttributeError"

/-- Python `k in v` for a string key `k` (used at `"data" in dataset`):
key membership on dicts, element membership on lists, substring test on
strings (`k` is always the non-empty literal `"data"` at the call site),
`TypeError` otherwise. -/
def pyContains (v : PyVal) (k : String) : Except String Bool :=
  match v with
  | .dict fs => .ok (fs.any (fun p => p.1 == k))
  | .list xs => .ok (xs.any (fun x => match x with | .str s => s == k | _ => false))
  | .str s => .ok (decide ((s.splitOn k).length > 1))
  | _ => .error "TypeError"

/-- Python `a or b` on already-evaluated operands. -/
def pyOr (a b : PyVal) : PyVal := if a.truthy then a else b

/-- Python `len(v)` (`TypeError` on `None`/bool/number). -/
def pyLen : PyVal → Except String ℕ
  | .str s => .ok s.length
  | .list xs => .ok xs.length
  | .dict fs => .ok fs.length
  | _ => .error "TypeError"

/-- Python `v[:10]` (`TypeError` unless a sequence). -/
def pySlice10 : PyVal → Except String PyVal
  | .str s => .ok (.str (String.mk (s.toList.take 10)))
  | .list xs => .ok (.list (xs.take 10))
  | _ => .error "TypeError"

def isDigits (cs : List Char) : Bool := !cs.isEmpty && cs.all Char.isDigit

def natOfDigits (cs : List Char) : ℕ := cs.foldl (fun a c => a * 10 + (c.toNat - 48)) 0

/-- Python `float(s)` on a string, restricted to the plain decimal subset
`[+-] digits [ . digits ]` actually occurring in feed data (no exponent,
`inf` or `nan` forms); surrounding whitespace is stripped as Python does. -/
def pyParseFloat (s0 : String) : Option ℚ :=
  let s := s0.trim
  let p := if s.startsWith "-" then ((-1 : ℚ), s.drop 1)
           else if s.startsWith "+" then ((1 : ℚ), s.drop 1)
           else ((1 : ℚ), s)
  match (p.2.splitOn ".") with
  | [ip] => if isDigits ip.toList then some (p.1 * natOfDigits ip.toList) else Option.none
  | [ip, fp] =>
      if (isDigits ip.toList || ip == "") && (isDigits fp.toList || fp == "")
          && !(ip == "" && fp == "") then
        some (p.1 * ((natOfDigits ip.toList : ℚ) + (natOfDigits fp.toList : ℚ) / (10 ^ fp.length)))
      else Option.none
  | _ => Option.none

/-- Python `float(v)` (`v` is not `None` at the call sites; lists, dicts
and `None` raise `TypeError`, unparsable strings raise `ValueError`). -/
def pyFloat : PyVal → Except String ℚ
  | .num q => .ok q
  | .bool b => .ok (if b then 1 else 0)
  | .str s =>
      match pyParseFloat s with
      | some q => .ok q
      | Option.none => .error "ValueError"
  | _ => .error "TypeError"

/-! ## Shape normalizer (`_iter_forecast_locations`, `_iter_tide_locations`) -/

/-- The `resources -> resource` list case of `_iter_forecast_locations`:
each dict element owning a `"data"` key contributes a data block, in order. -/
def resourceBlocks : List PyVal → List PyVal
  | [] => []
  | PyVal.dict fs :: rs =>
      if fs.any (fun p => p.1 == "data") then
        ((fs.lookup "data").getD (.dict [])) :: resourceBlocks rs
      else resourceBlocks rs
  | _ :: rs => resourceBlocks rs

/-- Building `potential_data_blocks`: the `dataset -> data` path first,
then the `resources -> resource -> data` path (dict or list `resource`). -/
def collectBlocks (cwa : PyVal) : Except String (List PyVal) :=
  match cwa.getD "dataset" (.dict []) with
  | .error e => .error e
  | .ok dataset =>
    match pyContains dataset "data" with
    | .error e => .error e
    | .ok hasData =>
      let step2 : List PyVal → Except String (List PyVal) := fun firstBlocks =>
        match cwa.getD "resources" (.dict []) with
        | .error e => .error e
        | .ok resources =>
          match resources.getD "resource" (.dict []) with
          | .error e => .error e
          | .ok resource =>
            match resource with
            | PyVal.dict fs =>
                if fs.any (fun p => p.1 == "data") then
                  .ok (firstBlocks ++ [(fs.lookup "data").getD (.dict [])])
                else .ok firstBlocks
            | PyVal.list rs => .ok (firstBlocks ++ resourceBlocks rs)
            | _ => .ok firstBlocks
      if hasData then
        match dataset.getD "data" (.dict []) with
        | .error e => .error e
        | .ok d => step2 [d]
      else step2 []

/-- Probing one data block: `block -> agrWeatherForecasts ->
weatherForecasts -> location`; `some ls` when the location value is a
list (possibly empty). -/
def probeBlock (block : PyVal) : Except String (Option (List PyVal)) :=
  match block.getD "agrWeatherForecasts" (.dict []) with
  | .error e => .error e
  | .ok agr =>
    match agr.getD "weatherForecasts" (.dict []) with
    | .error e => .error e
    | .ok wf =>
      match wf.getD "location" .none with
      | .error e => .error e
      | .ok (.list ls) => .ok (some ls)
      | .ok _ => .ok Option.none

/-- The probing loop with its `break`: the first block whose `location`
value is a list wins and later blocks are not inspected at all. -/
def probeBlocks : List PyVal → Except String (Option (List PyVal))
  | [] => .ok Option.none
  | b :: bs =>
    match probeBlock b with
    | .error e => .error e
    | .ok (some ls) => .ok (some ls)
    | .ok Option.none => probeBlocks bs

/-- `list(_iter_forecast_locations(payload))` together with the
`found_locations` flag (the Boolean is `false` exactly when the
generator prints its diagnostic). Non-dict entries of the winning
location list are dropped by the `isinstance(entry, dict)` guard. -/
def iter_forecast_locations (payload : PyVal) : Except String (List PyVal × Bool) :=
  match payload.getD "cwaopendata" (.dict []) with
  | .error e => .error e
  | .ok cwa =>
    match collectBlocks cwa with
    | .error e => .error e
    | .ok blocks =>
      match probeBlocks blocks with
      | .error e => .error e
      | .ok (some ls) => .ok (ls.filter PyVal.isDict, true)
      | .ok Option.none => .ok ([], false)

/-- `list(_iter_tide_locations(payload))`: `cwaopendata -> dataset ->
location`, keeping dict entries. -/
def iter_tide_locations (payload : PyVal) : Except String (List PyVal) :=
  match payload.getD "cwaopendata" (.dict []) with
  | .error e => .error e
  | .ok cwa =>
    match cwa.getD "dataset" (.dict []) with
    | .error e => .error e
    | .ok dataset =>
      match dataset.getD "location" .none with
      | .error e => .error e
      | .ok (.list ls) => .ok (ls.filter PyVal.isDict)
      | .ok _ => .ok []

/-- `_extract_temperature`: `None` for falsy input, else the `daily`
value filtered to its dict items when it is a list, else `None`. -/
def extract_temperature (element : PyVal) : Except String (Option (List PyVal)) :=
  if !element.truthy then .ok Option.none
  else
    match element.getD "daily" PyVal.none with
    | .error e => .error e
    | .ok (.list xs) => .ok (some (xs.filter PyVal.isDict))
    | .ok _ => .ok Option.none

/-! ## Record projector and store writer (`fetch_and_save`) -/

/-- A row of the `weather` table as bound by the `INSERT` statements:
`min_temp`/`max_temp` are already coerced (`float(...) if ... is not
None else None`), the other three columns carry the raw value. -/
structure Row where
  location : PyVal
  forecast_date : PyVal
  min_temp : Option ℚ
  max_temp : Option ℚ
  description : PyVal

/-- sqlite3 parameter binding accepts `None`, int/float, str (and bool,
an int subclass); a list or dict raises `InterfaceError`. -/
def bindable : PyVal → Bool
  | .none => true
  | .bool _ => true
  | .num _ => true
  | .str _ => true
  | _ => false

/-- `cursor.execute(INSERT ...)`: fails when a raw column value is of an
unsupported type. -/
def sqliteInsert (r : Row) : Except String Unit :=
  if bindable r.location && bindable r.forecast_date && bindable r.description
  then .ok () else .error "InterfaceError"

/-- `float(t) if t is not None else None`. -/
def coerceTemp (t : PyVal) : Except String (Option ℚ) :=
  match t with
  | PyVal.none => .ok Option.none
  | v =>
    match pyFloat v with
    | .error e => .error e
    | .ok q => .ok (some q)

/-- Body of the `try:` block in the agricultural loop: coerce the two
temperatures (left to right, as the tuple is evaluated) and bind the
insert parameters. -/
def tryInsertAgr (locName dateStr minT maxT desc : PyVal) : Except String Row :=
  match coerceTemp minT with
  | .error e => .error e
  | .ok minQ =>
    match coerceTemp maxT with
    | .error e => .error e
    | .ok maxQ =>
      let r : Row := ⟨locName, dateStr, minQ, maxQ, desc⟩
      match sqliteInsert r with
      | .error e => .error e
      | .ok _ => .ok r

/-- The `try: ... except:` around one insert: a failure is caught (and
logged), yielding `none` instead of a row; never re-raised. -/
def pyCatch (x : Except String Row) : Option Row :=
  match x with
  | .ok r => some r
  | .error _ => Option.none

/-- One iteration of `for idx in range(limit)`: pick the raw fields from
the three day items (these `.get` calls sit outside the `try:`), then
run the guarded insert; a failure inside the `try:` is caught and
logged, yielding `none` instead of a row. -/
def attemptInsert (locName minIt maxIt wxIt : PyVal) : Except String (Option Row) :=
  match minIt.getD "dataDate" PyVal.none with
  | .error e => .error e
  | .ok d1 =>
    match (if d1.truthy then .ok d1 else maxIt.getD "dataDate" PyVal.none :
        Except String PyVal) with
    | .error e => .error e
    | .ok dateStr =>
      match minIt.getD "temperature" PyVal.none with
      | .error e => .error e
      | .ok minT =>
        match maxIt.getD "temperature" PyVal.none with
        | .error e => .error e
        | .ok maxT =>
          match wxIt.getD "weather" PyVal.none with
          | .error e => .error e
          | .ok desc =>
            .ok (pyCatch (tryInsertAgr locName dateStr minT maxT desc))

/-- Python truthiness of an optional series (`None` and `[]` are falsy). -/
def seriesTruthy : Option (List PyVal) → Bool
  | Option.none => false
  | some xs => !xs.isEmpty

/-- The per-index loop `for idx in range(limit)` where
`limit = min(len(min_series), len(max_series), len(weather_series))`,
taken over the explicit index sequence `List.range limit`: returns the
outcome of each attempted insert in order. -/
def agrDayLoop (locName : PyVal) (mins maxs wxs : List PyVal) :
    List ℕ → Except String (List (Option Row))
  | [] => .ok []
  | idx :: rest =>
    match attemptInsert locName (mins.getD idx PyVal.none) (maxs.getD idx PyVal.none)
        (wxs.getD idx PyVal.none) with
    | .error e => .error e
    | .ok o =>
      match agrDayLoop locName mins maxs wxs rest with
      | .error e => .error e
      | .ok os => .ok (o :: os)

/-- Processing one agricultural location entry: `Option.none` means the
location was skipped (and logged) because one of the three series was
missing or empty; `some attempts` lists the per-day insert outcomes. -/
def processAgrEntry (entry : PyVal) : Except String (Option (List (Option Row))) :=
  match entry.getD "locationName" PyVal.none with
  | .error e => .error e
  | .ok locName =>
    match entry.getD "weatherElements" (.dict []) with
    | .error e => .error e
    | .ok elements =>
      match elements.getD "MinT" PyVal.none with
      | .error e => .error e
      | .ok minE =>
        match extract_temperature minE with
        | .error e => .error e
        | .ok minS =>
          match elements.getD "MaxT" PyVal.none with
          | .error e => .error e
          | .ok maxE =>
            match extract_temperature maxE with
            | .error e => .error e
            | .ok maxS =>
              match elements.getD "Wx" PyVal.none with
              | .error e => .error e
              | .ok wxE =>
                match extract_temperature wxE with
                | .error e => .error e
                | .ok wxS =>
                  if !(seriesTruthy minS && seriesTruthy maxS && seriesTruthy wxS) then
                    .ok Option.none
                  else
                    let mins := minS.getD []
                    let maxs := maxS.getD []
                    let wxs := wxS.getD []
                    let limit := min mins.length (min maxs.length wxs.length)
                    match agrDayLoop locName mins maxs wxs (List.range limit) with
                    | .error e => .error e
                    | .ok attempts => .ok (some attempts)

/-- The agricultural branch of `fetch_and_save`: rows inserted (in
order), caught per-record failures, skipped locations. -/
def processAgrEntries : List PyVal → Except String (List Row × ℕ × ℕ)
  | [] => .ok ([], 0, 0)
  | e :: es =>
    match processAgrEntry e with
    | .error err => .error err
    | .ok Option.none =>
      match processAgrEntries es with
      | .error err => .error err
      | .ok (rows, fails, skips) => .ok (rows, fails, skips + 1)
    | .ok (some attempts) =>
      match processAgrEntries es with
      | .error err => .error err
      | .ok (rows, fails, skips) =>
          .ok (attempts.filterMap id ++ rows,
               attempts.countP Option.isNone + fails, skips)

/-- `times[0] if isinstance(times, list) and times else {}`. -/
def pyFirstTime : PyVal → PyVal
  | .list (t :: _) => t
  | _ => .dict []

/-- Processing one tide location entry (the fallback branch): one row,
from only the first element of the `time` list. -/
def processTideEntry (entry : PyVal) : Except String Row :=
  match entry.getD "locationName" PyVal.none with
  | .error e => .error e
  | .ok locName =>
    match entry.getD "time" (.list []) with
    | .error e => .error e
    | .ok times =>
      match (pyFirstTime times).getD "startTime" (.str "") with
      | .error e => .error e
      | .ok startTime =>
        match pyLen startTime with
        | .error e => .error e
        | .ok n =>
          match (if n ≥ 10 then pySlice10 startTime
                 else .ok (pyOr startTime (.str "未知日期")) : Except String PyVal) with
          | .error e => .error e
          | .ok dateStr =>
            .ok ⟨locName, dateStr, some 0, some 0, pyOr startTime (.str "潮汐預報")⟩

/-- The tide loop: the insert is NOT inside a `try:`, so a failing
insert aborts the whole batch. -/
def processTideEntries : List PyVal → Except String (List Row)
  | [] => .ok []
  | e :: es =>
    match processTideEntry e with
    | .error err => .error err
    | .ok r =>
      match sqliteInsert r with
      | .error err => .error err
      | .ok _ =>
        match processTideEntries es with
        | .error err => .error err
        | .ok rest => .ok (r :: rest)

/-- Observable outcome of one `fetch_and_save` run. `table` is the
committed content of the `weather` table afterwards: on an uncaught
exception inside the `with sqlite3.connect(...)` block the open
transaction is rolled back, leaving the prior content. -/
structure RunResult where
  table : List Row := []
  insertCount : ℕ := 0
  loadFailed : Bool := false
  crashed : Bool := false
  agrDiag : Bool := false
  skippedLocs : ℕ := 0
  caughtFailures : ℕ := 0
  usedTide : Bool := false

/-- `fetch_and_save`, parametrised by the outcome of `_load_payload()`
(a transport/decode failure is `Except.error`) and the prior table
content of the connected database. -/
def fetch_and_save (load : Except String PyVal) (prior : List Row) : RunResult :=
  match load with
  | .error _ => { table := prior, loadFailed := true }
  | .ok payload =>
    match iter_forecast_locations payload with
    | .error _ => { table := prior, crashed := true }
    | .ok (forecasts, found) =>
      if forecasts.isEmpty then
        match iter_tide_locations payload with
        | .error _ => { table := prior, crashed := true, agrDiag := !found, usedTide := true }
        | .ok tideEntries =>
          match processTideEntries tideEntries with
          | .error _ => { table := prior, crashed := true, agrDiag := !found, usedTide := true }
          | .ok rows =>
              { table := prior ++ rows, insertCount := rows.length,
                agrDiag := !found, usedTide := true }
      else
        match processAgrEntries forecasts with
        | .error _ => { table := prior, crashed := true, agrDiag := !found }
        | .ok (rows, fails, skips) =>
            { table := prior ++ rows, insertCount := rows.length, agrDiag := !found,
              skippedLocs := skips, caughtFailures := fails }

/-! ## Store lifecycle (`init_db`, `__main__`) -/

/-- The on-disk store: `Option.none` when `data.db` is absent, `some t`
when it holds the `weather` table with rows `t`. -/
def StoreState := Option (List Row)

/-- `init_db`: delete the database file if present, then connect
(creating the file) and `CREATE TABLE IF NOT EXISTS`, leaving an empty
table. -/
def init_db (_s : StoreState) : StoreState := some []

/-- `sqlite3.connect(DB_NAME)` as used by `fetch_and_save`: creates the
file when absent; returns the current table content. -/
def connectTable (s : StoreState) : List Row := s.getD []

/-- `__main__`: `init_db()` then `fetch_and_save()`. -/
def run_main (load : Except String PyVal) (s : StoreState) : StoreState × RunResult :=
  let s1 := init_db s
  let r := fetch_and_save load (connectTable s1)
  (some r.table, r)

/-! ## Dashboard (`02_app.py`, "all locations" view) -/

/-- A row as read back by `pd.read_sql_query("SELECT * FROM weather")`;
the text columns hold strings, the REAL columns hold NULL-able numbers
(floats modelled as exact rationals). -/
structure StoredRow where
  location : String
  forecast_date : String
  min_temp : Option ℚ
  max_temp : Option ℚ
  description : String
deriving DecidableEq

/-- `Series.mean()` with pandas' default `skipna=True`: NULL/NaN entries
are dropped; an all-null series yields NaN (`Option.none` here). -/
def pandasMean (xs : List (Option ℚ)) : Option ℚ :=
  let vs := xs.filterMap id
  if vs.isEmpty then Option.none else some (vs.sum / (vs.length : ℚ))

/-- `sort_values(["forecast_date", "location"])` key on the raw strings
(the `except` branch sorts the unparsed column). -/
def rawLe (a b : StoredRow) : Bool :=
  decide (a.forecast_date < b.forecast_date) ||
    (a.forecast_date == b.forecast_date && decide (a.location ≤ b.location))

/-- The same sort key after `pd.to_datetime` succeeded, with parsed
dates abstracted as integers via the given parse function. -/
def parsedLe (parse : String → Option ℤ) (a b : StoredRow) : Bool :=
  let ka := (parse a.forecast_date).getD 0
  let kb := (parse b.forecast_date).getD 0
  decide (ka < kb) || (ka == kb && decide (a.location ≤ b.location))

/-- Whether `pd.to_datetime(filtered_df["forecast_date"])` succeeds: it
raises as soon as any value fails to parse. -/
def datesOk (parse : String → Option ℤ) (rows : List StoredRow) : Bool :=
  rows.all (fun r => (parse r.forecast_date).isSome)

/-- What the "all locations" page renders. -/
structure DashView where
  parsedDates : Bool
  avgMin : Option ℚ
  avgMax : Option ℚ
  chartShown : Bool
  fallbackNotice : Bool
  displayed : List StoredRow
  datesFormatted : Bool

/-- The `ALL_OPTION` branch of the dashboard for a non-empty table:
parse-or-fallback, sort, metrics over the sorted frame, chart or the
fallback notice, and the table display (`strftime` reformatting happens
only when parsing succeeded). `pd.to_datetime` is abstracted by the
`parse` parameter. -/
def allView (parse : String → Option ℤ) (rows : List StoredRow) : DashView :=
  let ok := datesOk parse rows
  let sorted := if ok then rows.mergeSort (parsedLe parse) else rows.mergeSort rawLe
  { parsedDates := ok
    avgMin := pandasMean (sorted.map (fun r => r.min_temp))
    avgMax := pandasMean (sorted.map (fun r => r.max_temp))
    chartShown := !rows.isEmpty && ok
    fallbackNotice := !(!rows.isEmpty && ok)
    displayed := sorted
    datesFormatted := ok }

/-! ## Claim-side definitions (worded after the spec, for comparison) -/

/-- Total dictionary lookup with default, for the claim-side
descriptions below (claims speak about well-shaped payloads only). -/
def dlookup (e : PyVal) (k : String) (d : PyVal) : PyVal :=
  match e with
  | .dict fs => (fs.lookup k).getD d
  | _ => d

/-- Claim C2's first agricultural nesting path, as the claim words it:
`cwaopendata -> dataset -> data -> agrWeatherForecasts ->
weatherForecasts -> location`. -/
def claimProbePath1 (payload : PyVal) : List PyVal :=
  match dlookup (dlookup (dlookup (dlookup (dlookup
      (dlookup payload "cwaopendata" (.dict [])) "dataset" (.dict []))
      "data" (.dict [])) "agrWeatherForecasts" (.dict []))
      "weatherForecasts" (.dict [])) "location" PyVal.none with
  | .list ls => ls
  | _ => []

/-- Claim C2's second agricultural nesting path:
`cwaopendata -> resources -> resource -> data -> ... -> location`. -/
def claimProbePath2 (payload : PyVal) : List PyVal :=
  match dlookup (dlookup (dlookup (dlookup (dlookup (dlookup
      (dlookup payload "cwaopendata" (.dict [])) "resources" (.dict []))
      "resource" (.dict [])) "data" (.dict [])) "agrWeatherForecasts" (.dict []))
      "weatherForecasts" (.dict [])) "location" PyVal.none with
  | .list ls => ls
  | _ => []

/-- Claim C2 as stated: "the first shape whose probe yields a non-empty
location list wins" — path 1, then path 2. -/
def claimFirstNonEmptyProbe (payload : PyVal) : List PyVal :=
  if !(claimProbePath1 payload).isEmpty then claimProbePath1 payload
  else if !(claimProbePath2 payload).isEmpty then claimProbePath2 payload
  else []

/-- Well-formedness of one tide location entry as claim C10 presumes it:
a dict whose `locationName` is an insertable scalar and whose `time`
value, when it is a non-empty list, starts with a dict whose
`startTime` is a string (or absent). -/
def tideWf (e : PyVal) : Bool :=
  e.isDict && bindable (dlookup e "locationName" PyVal.none) &&
    (match dlookup e "time" (.list []) with
     | .list (t :: _) =>
         t.isDict &&
           (match dlookup t "startTime" (.str "") with
            | .str _ => true
            | _ => false)
     | _ => true)

/-- The record claim C10 describes for one tide location entry: built
from only the first `time` entry, `forecast_date` the `startTime`
truncated to 10 characters (untruncated when shorter, `"未知日期"` when
empty), description the `startTime` (`"潮汐預報"` when empty), zero
temperatures. -/
def claimTideRow (e : PyVal) : Row :=
  let st : String :=
    match dlookup e "time" (.list []) with
    | .list (t :: _) =>
        match dlookup t "startTime" (.str "") with
        | .str s => s
        | _ => ""
    | _ => ""
  { location := dlookup e "locationName" PyVal.none
    forecast_date :=
      .str (if st.length ≥ 10 then String.mk (st.toList.take 10)
            else if st == "" then "未知日期" else st)
    min_temp := some 0
    max_temp := some 0
    description := .str (if st == "" then "潮汐預報" else st) }

/-! ## Payload builders and concrete inputs -/

/-- A well-shaped agricultural payload through the `dataset -> data`
path. -/
def mkAgrPayload (entries : List PyVal) : PyVal :=
  .dict [("cwaopendata", .dict [("dataset", .dict [("data", .dict
    [("agrWeatherForecasts", .dict [("weatherForecasts", .dict
      [("location", .list entries)])])])])])]

/-- A well-shaped tide payload (`dataset -> location`, no data block). -/
def mkTidePayload (entries : List PyVal) : PyVal :=
  .dict [("cwaopendata", .dict [("dataset", .dict
    [("location", .list entries)])])]

/-- A day item of a temperature series. -/
def mkTempDay (d : String) (t : PyVal) : PyVal :=
  .dict [("dataDate", .str d), ("temperature", t)]

/-- A day item of the weather-description series. -/
def mkWxDay (d : String) (w : PyVal) : PyVal :=
  .dict [("dataDate", .str d), ("weather", w)]

/-- An agricultural location entry with the three element series. -/
def mkAgrEntry (name : String) (mins maxs wxs : List PyVal) : PyVal :=
  .dict [("locationName", .str name),
         ("weatherElements", .dict
           [("MinT", .dict [("daily", .list mins)]),
            ("MaxT", .dict [("daily", .list maxs)]),
            ("Wx", .dict [("daily", .list wxs)])])]

/-- A fully well-formed location entry: per day a date, two numeric
temperatures and a weather string, aligned across the three series. -/
def mkWfEntry (name : String) (days : List (String × ℚ × ℚ × String)) : PyVal :=
  mkAgrEntry name
    (days.map (fun p => mkTempDay p.1 (.num p.2.1)))
    (days.map (fun p => mkTempDay p.1 (.num p.2.2.1)))
    (days.map (fun p => mkWxDay p.1 (.str p.2.2.2)))

/-- The row such a well-formed day projects to. -/
def wfRow (name : String) (p : String × ℚ × ℚ × String) : Row :=
  ⟨.str name, .str p.1, some p.2.1, some p.2.2.1, .str p.2.2.2⟩

/-- Concrete dict entry sitting at the second nesting path of the C2
counterexample payload. -/
def c2entry : PyVal := .dict [("locationName", .str "恆春")]

/-- C2 counterexample payload: the first path holds an EMPTY location
list, the second path a non-empty one. -/
def c2payload : PyVal :=
  .dict [("cwaopendata", .dict
    [("dataset", .dict [("data", .dict
       [("agrWeatherForecasts", .dict [("weatherForecasts", .dict
         [("location", .list [])])])])]),
     ("resources", .dict [("resource", .dict [("data", .dict
       [("agrWeatherForecasts", .dict [("weatherForecasts", .dict
         [("location", .list [c2entry])])])])])])])]

/-- Tide entry whose `locationName` is a list: sqlite cannot bind it,
so its insert raises. -/
def c3bad : PyVal := .dict [("locationName", .list [.str "oops"])]

/-- A following, perfectly insertable tide entry. -/
def c3good : PyVal :=
  .dict [("locationName", .str "安平"),
         ("time", .list [.dict [("startTime", .str "2024-01-02T03:00:00")]])]

/-- C3 counterexample payload: tide shape, failing insert first. -/
def c3payload : PyVal := mkTidePayload [c3bad, c3good]

/-- 5/5/3 location entry for the C1 witness. -/
def entry553 : PyVal :=
  mkAgrEntry "嘉義"
    ((List.range 5).map (fun i => mkTempDay (toString i) (.num 10)))
    ((List.range 5).map (fun i => mkTempDay (toString i) (.num 20)))
    ((List.range 3).map (fun i => mkWxDay (toString i) (.str "晴")))

/-- The row `c3good` projects to on the tide path. -/
def tideRowGood : Row :=
  ⟨.str "安平", .str "2024-01-02", some 0, some 0, .str "2024-01-02T03:00:00"⟩

/-- Tide entry with no `time` key at all. -/
def twNoTime : PyVal := .dict [("locationName", .str "彰化")]

/-- Agricultural entry whose `Wx` series is missing entirely. -/
def skipEntry : PyVal :=
  .dict [("locationName", .str "鹿港"),
         ("weatherElements", .dict
           [("MinT", .dict [("daily", .list [mkTempDay "1" (.num 5)])]),
            ("MaxT", .dict [("daily", .list [mkTempDay "1" (.num 9)])])])]

/-- Concrete stored rows and date parser for the dashboard witnesses. -/
def srow1 : StoredRow := ⟨"台北", "2024-01-01", some 10, some 20, "晴"⟩

def srow2 : StoredRow := ⟨"台中", "2024-01-02", some 12, some 22, "雨"⟩

def srow3 : StoredRow := ⟨"高雄", "潮汐預報", some 1, some 2, "雲"⟩

def parseIso (s : String) : Option ℤ :=
  if s == "2024-01-01" then some 1
  else if s == "2024-01-02" then some 2
  else Option.none

/-! # Theorems -/

/-! ## Helper lemmas -/

theorem getD_dict (fs : List (String × PyVal)) (k : String) (d : PyVal) :
    (PyVal.dict fs).getD k d = .ok (dlookup (.dict fs) k d) := rfl

theorem getD_of_isDict (v : PyVal) (h : v.isDict = true) (k : String) (d : PyVal) :
    v.getD k d = .ok (dlookup v k d) := by
  cases v <;> simp [PyVal.isDict] at h ⊢ <;> rfl

/-! ## C5 — destructive recreate, no accumulation -/

/-- C5: running the ingestion entry point leaves a store that does not
depend on the prior store state at all (`init_db` deletes the database
file and recreates the table empty before `fetch_and_save` inserts), so
after a second run only the second payload's records remain: the final
table is exactly what `fetch_and_save` produces over an empty table. -/
theorem C5_destructive_recreate (l1 l2 : Except String PyVal) (s s' : StoreState) :
    (run_main l2 ((run_main l1 s).1)).1 = (run_main l2 s').1 ∧
    (run_main l2 s).1 = some ((fetch_and_save l2 []).table) :=
  ⟨rfl, rfl⟩

/-! ## C6 — load failure aborts before any write -/

/-- C6: when `_load_payload()` raises (any transport or JSON-decode
exception), `fetch_and_save` logs the failure and returns before
opening the database, leaving the prior table content untouched; hence
a full `__main__` run with a failing load leaves exactly the empty
table `init_db` just recreated. -/
theorem C6_load_failure_aborts (msg : String) (prior : List Row) (s : StoreState) :
    fetch_and_save (.error msg) prior = { table := prior, loadFailed := true } ∧
    (run_main (.error msg) s).1 = some [] :=
  ⟨rfl, rfl⟩

/-! ## C2 — probe order of the shape normalizer -/

/-- C2 counterexample: on `c2payload` the first agricultural path holds
an EMPTY location list and the second path a non-empty one. The claim
("the first shape whose probe yields a non-empty location list wins")
demands the second path's entry; the code stops at the first path
because its `location` value is a list at all, yields nothing, sets
`found_locations` (no diagnostic), and the caller then falls through to
the tide shape. -/
theorem C2_cex :
    claimFirstNonEmptyProbe c2payload = [c2entry] ∧
    iter_forecast_locations c2payload = .ok ([], true) ∧
    (fetch_and_save (.ok c2payload) []).usedTide = true :=
  ⟨rfl, rfl, rfl⟩

theorem probeBlocks_first_list (bs1 : List PyVal) (b : PyVal) (bs2 : List PyVal)
    (ls : List PyVal) (h1 : ∀ b' ∈ bs1, probeBlock b' = .ok Option.none)
    (h2 : probeBlock b = .ok (some ls)) :
    probeBlocks (bs1 ++ b :: bs2) = .ok (some ls) := by
  induction bs1 with
  | nil => simp [probeBlocks, h2]
  | cons x xs ih =>
      have hx := h1 x (by simp)
      simp only [List.cons_append, probeBlocks, hx]
      exact ih (fun b' hb' => h1 b' (by simp [hb']))

theorem probeBlocks_all_none (bs : List PyVal)
    (h : ∀ b ∈ bs, probeBlock b = .ok Option.none) :
    probeBlocks bs = .ok Option.none := by
  induction bs with
  | nil => rfl
  | cons x xs ih =>
      have hx := h x (by simp)
      simp only [probeBlocks, hx]
      exact ih (fun b hb => h b (by simp [hb]))

/-- C2 amended: the data blocks are collected in the fixed order
`dataset.data` then `resources.resource.data`, and the first block
whose `weatherForecasts.location` value is a LIST wins — even when that
list is empty or contains no dict entries — with the remaining blocks
not probed at all (the conclusion does not depend on `bs2`); when no
block has a list-valued `location`, the result is empty and flagged for
the diagnostic; the tide shape is consulted by the caller exactly when
the agricultural probe yielded zero entries. -/
theorem C2_probe_order :
    (∀ (payload cwa b : PyVal) (bs1 bs2 ls : List PyVal),
      payload.getD "cwaopendata" (.dict []) = .ok cwa →
      collectBlocks cwa = .ok (bs1 ++ b :: bs2) →
      (∀ b' ∈ bs1, probeBlock b' = .ok Option.none) →
      probeBlock b = .ok (some ls) →
      iter_forecast_locations payload = .ok (ls.filter PyVal.isDict, true)) ∧
    (∀ (payload cwa : PyVal) (bs : List PyVal),
      payload.getD "cwaopendata" (.dict []) = .ok cwa →
      collectBlocks cwa = .ok bs →
      (∀ b ∈ bs, probeBlock b = .ok Option.none) →
      iter_forecast_locations payload = .ok ([], false)) ∧
    (∀ (payload : PyVal) (prior : List Row) (found : Bool),
      iter_forecast_locations payload = .ok ([], found) →
      (fetch_and_save (.ok payload) prior).usedTide = true) ∧
    (∀ (payload e : PyVal) (prior : List Row) (rest : List PyVal) (found : Bool),
      iter_forecast_locations payload = .ok (e :: rest, found) →
      (fetch_and_save (.ok payload) prior).usedTide = false) := by
  refine ⟨?_, ?_, ?_, ?_⟩
  · intro payload cwa b bs1 bs2 ls hcwa hblocks h1 h2
    simp [iter_forecast_locations, hcwa, hblocks,
      probeBlocks_first_list bs1 b bs2 ls h1 h2]
  · intro payload cwa bs hcwa hblocks h
    simp [iter_forecast_locations, hcwa, hblocks, probeBlocks_all_none bs h]
  · intro payload prior found h
    simp only [fetch_and_save, h, List.isEmpty_nil, if_true]
    cases ht : iter_tide_locations payload with
    | error e => rfl
    | ok entries =>
        cases hp : processTideEntries entries with
        | error err => simp [hp]
        | ok rows => simp [hp]
  · intro payload e prior rest found h
    simp only [fetch_and_save, h, List.isEmpty_cons, if_false]
    cases processAgrEntries (e :: rest) with
    | error err => rfl
    | ok triple => rfl

/-- C2 witness: the amended first-wins rule applied to a concrete
single-block agricultural payload. -/
theorem C2_probe_order_witness :
    iter_forecast_locations (mkAgrPayload [c2entry]) = .ok ([c2entry], true) :=
  C2_probe_order.1 (mkAgrPayload [c2entry]) _ _ [] [] [c2entry] rfl rfl
    (fun _ hb => absurd hb (List.not_mem_nil _)) rfl

/-! ## C3 — per-record insert failure handling -/

theorem ok_ite (c : Prop) [Decidable c] (a b : PyVal) :
    (if c then (Except.ok a : Except String PyVal) else .ok b) =
      .ok (if c then a else b) := by
  by_cases h : c
  · rw [if_pos h, if_pos h]
  · rw [if_neg h, if_neg h]

/-- C3 counterexample: on the tide fallback path the insert is NOT
guarded by a `try:`. In `c3payload` the first tide entry's
`locationName` is a list, so its parameter binding raises; the run
crashes, the open transaction is rolled back, and the second —
perfectly insertable — record is never inserted and no aggregate count
is reported, contradicting the claim for the tide path. -/
theorem C3_cex :
    fetch_and_save (.ok c3payload) [] =
      { table := [], crashed := true, agrDiag := true, usedTide := true } ∧
    processTideEntry c3good = .ok tideRowGood ∧
    sqliteInsert tideRowGood = .ok () :=
  ⟨rfl, rfl, rfl⟩

/-- C3 amended: on the agricultural path a per-record failure (type
coercion or parameter binding) is caught inside the loop body — the
body never propagates an exception when the three day items are dicts —
and the batch completes with the aggregate counts reported; on the tide
fallback path the insert is unguarded, so one failing insert aborts the
whole run, rolling the batch back to the prior table content. -/
theorem C3_insert_failures :
    (∀ (ln minIt maxIt wxIt : PyVal),
      minIt.isDict = true → maxIt.isDict = true → wxIt.isDict = true →
      ∃ o, attemptInsert ln minIt maxIt wxIt = .ok o) ∧
    (∀ (payload : PyVal) (prior : List Row) (forecasts : List PyVal) (found : Bool)
        (rows : List Row) (fails skips : ℕ),
      iter_forecast_locations payload = .ok (forecasts, found) →
      forecasts.isEmpty = false →
      processAgrEntries forecasts = .ok (rows, fails, skips) →
      fetch_and_save (.ok payload) prior =
        { table := prior ++ rows, insertCount := rows.length, agrDiag := !found,
          skippedLocs := skips, caughtFailures := fails }) ∧
    (∀ (e : PyVal) (es : List PyVal) (r : Row) (msg : String),
      processTideEntry e = .ok r → sqliteInsert r = .error msg →
      processTideEntries (e :: es) = .error msg) ∧
    (∀ (payload : PyVal) (prior : List Row) (found : Bool) (entries : List PyVal)
        (msg : String),
      iter_forecast_locations payload = .ok ([], found) →
      iter_tide_locations payload = .ok entries →
      processTideEntries entries = .error msg →
      fetch_and_save (.ok payload) prior =
        { table := prior, crashed := true, agrDiag := !found, usedTide := true }) := by
  refine ⟨?_, ?_, ?_, ?_⟩
  · intro ln minIt maxIt wxIt hmin hmax hwx
    cases minIt <;> simp [PyVal.isDict] at hmin
    cases maxIt <;> simp [PyVal.isDict] at hmax
    cases wxIt <;> simp [PyVal.isDict] at hwx
    unfold attemptInsert
    simp only [PyVal.getD, ok_ite]
    exact ⟨_, rfl⟩
  · intro payload prior forecasts found rows fails skips h1 h2 h3
    simp [fetch_and_save, h1, h2, h3]
  · intro e es r msg h1 h2
    simp [processTideEntries, h1, h2]
  · intro payload prior found entries msg h1 h2 h3
    simp [fetch_and_save, h1, h2, h3]

/-- C3 witness: the unguarded tide insert aborts a concrete two-entry
batch, and the whole run crashes with an empty table. -/
theorem C3_insert_failures_witness :
    processTideEntries [c3bad, c3good] = .error "InterfaceError" ∧
    fetch_and_save (.ok c3payload) [] =
      { table := [], crashed := true, agrDiag := true, usedTide := true } :=
  ⟨C3_insert_failures.2.2.1 c3bad [c3good]
      ⟨.list [.str "oops"], .str "未知日期", some 0, some 0, .str "潮汐預報"⟩
      "InterfaceError" rfl rfl,
   C3_insert_failures.2.2.2 c3payload [] false [c3bad, c3good] "InterfaceError"
      rfl rfl rfl⟩

/-! ## C7 — tide records carry zero temperatures -/

theorem processTideEntry_zero (e : PyVal) (r : Row)
    (h : processTideEntry e = .ok r) :
    r.min_temp = some 0 ∧ r.max_temp = some 0 := by
  unfold processTideEntry at h
  repeat' split at h
  all_goals (cases h <;> exact ⟨rfl, rfl⟩)

theorem processTideEntries_zero (es : List PyVal) (rows : List Row)
    (h : processTideEntries es = .ok rows) :
    ∀ r ∈ rows, r.min_temp = some 0 ∧ r.max_temp = some 0 := by
  induction es generalizing rows with
  | nil =>
      cases h
      intro r hr
      exact absurd hr (List.not_mem_nil r)
  | cons e es ih =>
      unfold processTideEntries at h
      cases he : processTideEntry e with
      | error err => simp only [he] at h; exact absurd h (by simp)
      | ok r0 =>
          simp only [he] at h
          cases hs : sqliteInsert r0 with
          | error err => simp only [hs] at h; exact absurd h (by simp)
          | ok u =>
              simp only [hs] at h
              cases hrest : processTideEntries es with
              | error err => simp only [hrest] at h; exact absurd h (by simp)
              | ok rest =>
                  simp only [hrest] at h
                  cases h
                  intro r hr
                  rcases List.mem_cons.mp hr with h' | h'
                  · subst h'; exact processTideEntry_zero e r he
                  · exact ih rest hrest r h'

/-- C7: every record produced on the tide fallback path has
`min_temp = 0.0` and `max_temp = 0.0` — both for the raw tide batch and
for the table a tide-shaped run leaves behind (over an empty prior
table). -/
theorem C7_tide_zero :
    (∀ (es : List PyVal) (rows : List Row), processTideEntries es = .ok rows →
       ∀ r ∈ rows, r.min_temp = some 0 ∧ r.max_temp = some 0) ∧
    (∀ (payload : PyVal) (r : Row),
       (fetch_and_save (.ok payload) []).usedTide = true →
       r ∈ (fetch_and_save (.ok payload) []).table →
       r.min_temp = some 0 ∧ r.max_temp = some 0) := by
  refine ⟨processTideEntries_zero, ?_⟩
  intro payload r hu hr
  simp only [fetch_and_save] at hu hr
  cases hi : iter_forecast_locations payload with
  | error err => simp only [hi] at hr; exact absurd hr (by simp)
  | ok p =>
      obtain ⟨forecasts, found⟩ := p
      simp only [hi] at hu hr
      by_cases hf : forecasts.isEmpty = true
      · simp only [hf, if_true] at hr
        cases ht : iter_tide_locations payload with
        | error err => simp only [ht] at hr; exact absurd hr (by simp)
        | ok entries =>
            simp only [ht] at hr
            cases hp : processTideEntries entries with
            | error err => simp only [hp] at hr; exact absurd hr (by simp)
            | ok rows =>
                simp only [hp, List.nil_append] at hr
                exact processTideEntries_zero entries rows hp r hr
      · rw [Bool.not_eq_true] at hf
        simp only [hf, Bool.false_eq_true, if_false] at hu
        cases hagr : processAgrEntries forecasts with
        | error err => simp only [hagr] at hu; exact absurd hu (by simp)
        | ok triple =>
            obtain ⟨rows, fails, skips⟩ := triple
            simp only [hagr] at hu
            exact absurd hu (by simp)

/-- C7 witness: a concrete tide-shaped run. -/
theorem C7_tide_zero_witness :
    tideRowGood.min_temp = some 0 ∧ tideRowGood.max_temp = some 0 :=
  C7_tide_zero.2 (mkTidePayload [c3good]) tideRowGood rfl
    (by rw [show (fetch_and_save (.ok (mkTidePayload [c3good])) []).table =
          [tideRowGood] from rfl]
        exact List.mem_singleton_self tideRowGood)

/-! ## C10 — shape of tide records -/

theorem pyOr_str (s d : String) :
    pyOr (.str s) (.str d) = .str (if s = "" then d else s) := by
  by_cases h : s = "" <;> simp [pyOr, PyVal.truthy, h]

theorem processTideEntry_wf (e : PyVal) (hw : tideWf e = true) :
    processTideEntry e = .ok (claimTideRow e) ∧
    sqliteInsert (claimTideRow e) = .ok () := by
  rcases e with _ | b | q | s | xs | fs <;>
    simp only [tideWf, PyVal.isDict, Bool.false_and, Bool.and_eq_true,
      Bool.true_and, Bool.false_eq_true] at hw
  obtain ⟨hbind, htime⟩ := hw
  simp only [dlookup] at hbind htime
  refine ⟨?_, ?_⟩
  · cases ht : (List.lookup "time" fs).getD (PyVal.list []) with
    | list ts =>
        cases ts with
        | nil =>
            simp [processTideEntry, claimTideRow, getD_dict, dlookup, ht,
              pyFirstTime, pyLen, pyOr, PyVal.truthy]
        | cons t rest =>
            simp only [ht] at htime
            rcases t with _ | b' | q' | s' | xs' | ft <;>
              simp only [PyVal.isDict, Bool.false_and, Bool.and_eq_true,
                Bool.true_and, Bool.false_eq_true] at htime
            cases hst : (List.lookup "startTime" ft).getD (PyVal.str "") with
            | str s =>
                by_cases h10 : 10 ≤ s.length <;> by_cases hemp : s = "" <;>
                  simp [processTideEntry, claimTideRow, getD_dict, dlookup, ht,
                    pyFirstTime, hst, pyLen, pySlice10, pyOr_str, h10, hemp]
            | none => simp only [hst, Bool.false_eq_true] at htime
            | bool b2 => simp only [hst, Bool.false_eq_true] at htime
            | num q2 => simp only [hst, Bool.false_eq_true] at htime
            | list l2 => simp only [hst, Bool.false_eq_true] at htime
            | dict d2 => simp only [hst, Bool.false_eq_true] at htime
    | none =>
        simp [processTideEntry, claimTideRow, getD_dict, dlookup, ht,
          pyFirstTime, pyLen, pyOr, PyVal.truthy]
    | bool b2 =>
        simp [processTideEntry, claimTideRow, getD_dict, dlookup, ht,
          pyFirstTime, pyLen, pyOr, PyVal.truthy]
    | num q2 =>
        simp [processTideEntry, claimTideRow, getD_dict, dlookup, ht,
          pyFirstTime, pyLen, pyOr, PyVal.truthy]
    | str s2 =>
        simp [processTideEntry, claimTideRow, getD_dict, dlookup, ht,
          pyFirstTime, pyLen, pyOr, PyVal.truthy]
    | dict d2 =>
        simp [processTideEntry, claimTideRow, getD_dict, dlookup, ht,
          pyFirstTime, pyLen, pyOr, PyVal.truthy]
  · simp only [bindable] at hbind
    simp [claimTideRow, sqliteInsert, bindable, dlookup, hbind]

/-- C10: on the tide fallback path every well-formed location entry
produces exactly one record, built from only the first entry of its
time list exactly as the claim describes (`claimTideRow`): the
`forecast_date` is the first `startTime` truncated to its first 10
characters, or the untruncated `startTime` when shorter, or `"未知日期"`
when empty; the description is that `startTime` or `"潮汐預報"` when
empty; a missing or empty time list yields the placeholder record. -/
theorem C10_tide_records (es : List PyVal) (h : ∀ e ∈ es, tideWf e = true) :
    processTideEntries es = .ok (es.map claimTideRow) ∧
    (es.map claimTideRow).length = es.length := by
  refine ⟨?_, List.length_map es claimTideRow⟩
  induction es with
  | nil => rfl
  | cons e es ih =>
      have he := processTideEntry_wf e (h e (by simp))
      have hrest := ih (fun e' he' => h e' (by simp [he']))
      simp only [processTideEntries, he.1, he.2, hrest, List.map_cons]

/-- C10 witness: a concrete two-entry tide batch (one full entry, one
with no time list). -/
theorem C10_tide_records_witness :
    processTideEntries [c3good, twNoTime] =
      .ok ([c3good, twNoTime].map claimTideRow) :=
  (C10_tide_records [c3good, twNoTime] (by decide)).1

/-! ## C4 — whole-location skip on missing series -/

/-- C4: an agricultural location whose three series do not all come out
present and non-empty is skipped as a whole — `processAgrEntry` yields
`Option.none` (the skip log) and zero records; the loop then continues
with the remaining locations, counting the skip; and conversely every
row the agricultural batch produces stems from an entry whose three
extracted series were present (`some`) and non-empty. -/
theorem C4_location_skip :
    (∀ (entry ln elems minE maxE wxE : PyVal) (minS maxS wxS : Option (List PyVal)),
      entry.getD "locationName" PyVal.none = .ok ln →
      entry.getD "weatherElements" (.dict []) = .ok elems →
      elems.getD "MinT" PyVal.none = .ok minE →
      extract_temperature minE = .ok minS →
      elems.getD "MaxT" PyVal.none = .ok maxE →
      extract_temperature maxE = .ok maxS →
      elems.getD "Wx" PyVal.none = .ok wxE →
      extract_temperature wxE = .ok wxS →
      (seriesTruthy minS && seriesTruthy maxS && seriesTruthy wxS) = false →
      processAgrEntry entry = .ok Option.none) ∧
    (∀ (e : PyVal) (es : List PyVal) (rows : List Row) (fails skips : ℕ),
      processAgrEntry e = .ok Option.none →
      processAgrEntries es = .ok (rows, fails, skips) →
      processAgrEntries (e :: es) = .ok (rows, fails, skips + 1)) ∧
    (∀ (entries : List PyVal) (rows : List Row) (fails skips : ℕ),
      processAgrEntries entries = .ok (rows, fails, skips) →
      ∀ r ∈ rows, ∃ e ∈ entries, ∃ attempts,
        processAgrEntry e = .ok (some attempts) ∧ some r ∈ attempts) ∧
    (∀ (e : PyVal) (attempts : List (Option Row)),
      processAgrEntry e = .ok (some attempts) →
      ∃ (ln elems minE maxE wxE : PyVal) (minS maxS wxS : Option (List PyVal)),
        e.getD "locationName" PyVal.none = .ok ln ∧
        e.getD "weatherElements" (.dict []) = .ok elems ∧
        elems.getD "MinT" PyVal.none = .ok minE ∧
        extract_temperature minE = .ok minS ∧
        elems.getD "MaxT" PyVal.none = .ok maxE ∧
        extract_temperature maxE = .ok maxS ∧
        elems.getD "Wx" PyVal.none = .ok wxE ∧
        extract_temperature wxE = .ok wxS ∧
        seriesTruthy minS = true ∧ seriesTruthy maxS = true ∧
        seriesTruthy wxS = true) := by
  refine ⟨?_, ?_, ?_, ?_⟩
  · intro entry ln elems minE maxE wxE minS maxS wxS h1 h2 h3 h4 h5 h6 h7 h8 h9
    simp only [processAgrEntry, h1, h2, h3, h4, h5, h6, h7, h8, h9,
      Bool.not_false, if_true]
  · intro e es rows fails skips h1 h2
    simp only [processAgrEntries, h1, h2]
  · intro entries
    induction entries with
    | nil =>
        intro rows fails skips h r hr
        cases h
        exact absurd hr (List.not_mem_nil r)
    | cons e es ih =>
        intro rows fails skips h r hr
        unfold processAgrEntries at h
        cases he : processAgrEntry e with
        | error err => simp only [he] at h; exact Except.noConfusion h
        | ok o =>
            simp only [he] at h
            cases o with
            | none =>
                cases hrest : processAgrEntries es with
                | error err => simp only [hrest] at h; exact Except.noConfusion h
                | ok triple =>
                    obtain ⟨rows', fails', skips'⟩ := triple
                    simp only [hrest] at h
                    cases h
                    obtain ⟨e', he', hatt⟩ := ih _ _ _ hrest r hr
                    exact ⟨e', List.mem_cons_of_mem e he', hatt⟩
            | some attempts =>
                cases hrest : processAgrEntries es with
                | error err => simp only [hrest] at h; exact Except.noConfusion h
                | ok triple =>
                    obtain ⟨rows', fails', skips'⟩ := triple
                    simp only [hrest] at h
                    cases h
                    rcases List.mem_append.mp hr with hl | hl
                    · obtain ⟨o, ho, hid⟩ := List.mem_filterMap.mp hl
                      cases o with
                      | none => exact absurd hid (by simp)
                      | some r0 =>
                          cases hid
                          exact ⟨e, List.mem_cons_self e es, attempts, he, ho⟩
                    · obtain ⟨e', he', hatt⟩ := ih _ _ _ hrest r hl
                      exact ⟨e', List.mem_cons_of_mem e he', hatt⟩
  · intro e attempts h
    unfold processAgrEntry at h
    cases h1 : e.getD "locationName" PyVal.none with
    | error err => simp only [h1] at h; exact Except.noConfusion h
    | ok ln =>
    simp only [h1] at h
    cases h2 : e.getD "weatherElements" (.dict []) with
    | error err => simp only [h2] at h; exact Except.noConfusion h
    | ok elems =>
    simp only [h2] at h
    cases h3 : elems.getD "MinT" PyVal.none with
    | error err => simp only [h3] at h; exact Except.noConfusion h
    | ok minE =>
    simp only [h3] at h
    cases h4 : extract_temperature minE with
    | error err => simp only [h4] at h; exact Except.noConfusion h
    | ok minS =>
    simp only [h4] at h
    cases h5 : elems.getD "MaxT" PyVal.none with
    | error err => simp only [h5] at h; exact Except.noConfusion h
    | ok maxE =>
    simp only [h5] at h
    cases h6 : extract_temperature maxE with
    | error err => simp only [h6] at h; exact Except.noConfusion h
    | ok maxS =>
    simp only [h6] at h
    cases h7 : elems.getD "Wx" PyVal.none with
    | error err => simp only [h7] at h; exact Except.noConfusion h
    | ok wxE =>
    simp only [h7] at h
    cases h8 : extract_temperature wxE with
    | error err => simp only [h8] at h; exact Except.noConfusion h
    | ok wxS =>
    simp only [h8] at h
    by_cases hc : (seriesTruthy minS && seriesTruthy maxS && seriesTruthy wxS) = true
    · simp only [Bool.and_eq_true] at hc
      obtain ⟨⟨hc1, hc2⟩, hc3⟩ := hc
      exact ⟨ln, elems, minE, maxE, wxE, minS, maxS, wxS,
        rfl, rfl, h3, h4, h5, h6, h7, h8, hc1, hc2, hc3⟩
    · rw [Bool.not_eq_true] at hc
      simp [hc] at h

/-- C4 witness: `skipEntry` (missing `Wx`) is skipped with zero records
and the singleton batch finishes with one skip counted. -/
theorem C4_location_skip_witness :
    processAgrEntry skipEntry = .ok Option.none ∧
    processAgrEntries [skipEntry] = .ok ([], 0, 1) :=
  have ha : processAgrEntry skipEntry = .ok Option.none :=
    C4_location_skip.1 skipEntry _ _ _ _ _ _ _ _ rfl rfl rfl rfl rfl rfl rfl rfl
      (by decide)
  ⟨ha, C4_location_skip.2.1 skipEntry [] [] 0 0 ha rfl⟩

/-! ## C1 — projection count per location, N×M in total -/

theorem bindable_str (s : String) : bindable (.str s) = true := rfl

theorem getD_mem (l : List α) (i : ℕ) (d : α) (hi : i < l.length) :
    l.getD i d ∈ l := by
  induction l generalizing i with
  | nil => simp at hi
  | cons a l ih =>
      cases i with
      | zero => exact List.mem_cons_self _ _
      | succ i => exact List.mem_cons_of_mem _ (ih i (by simpa using hi))

theorem getD_map (l : List α) (d : α) (g : α → PyVal) (i : ℕ) (hi : i < l.length) :
    (l.map g).getD i PyVal.none = g (l.getD i d) := by
  induction l generalizing i with
  | nil => simp at hi
  | cons a l ih =>
      cases i with
      | zero => rfl
      | succ i => exact ih i (by simpa using hi)

theorem range_map_getD (l : List α) (d : α) (g : α → β) :
    (List.range l.length).map (fun i => g (l.getD i d)) = l.map g := by
  induction l with
  | nil => rfl
  | cons a l ih =>
      rw [List.length_cons, List.range_succ_eq_map]
      simp only [List.map_cons, List.map_map]
      have hco : ((fun i => g ((a :: l).getD i d)) ∘ (fun i => i + 1)) =
          (fun i => g (l.getD i d)) := by
        funext i; rfl
      rw [hco, ih]
      rfl

theorem filter_isDict_map (l : List α) (g : α → PyVal)
    (hg : ∀ x, (g x).isDict = true) :
    (l.map g).filter PyVal.isDict = l.map g := by
  rw [List.filter_eq_self]
  intro a ha
  obtain ⟨x, _, rfl⟩ := List.mem_map.mp ha
  exact hg x

theorem attemptInsert_isOk (ln minIt maxIt wxIt : PyVal)
    (h1 : minIt.isDict = true) (h2 : maxIt.isDict = true)
    (h3 : wxIt.isDict = true) :
    ∃ o, attemptInsert ln minIt maxIt wxIt = .ok o := by
  cases minIt <;> simp [PyVal.isDict] at h1
  cases maxIt <;> simp [PyVal.isDict] at h2
  cases wxIt <;> simp [PyVal.isDict] at h3
  unfold attemptInsert
  simp only [PyVal.getD, ok_ite]
  exact ⟨_, rfl⟩

theorem agrDayLoop_ok_length (ln : PyVal) (mins maxs wxs : List PyVal)
    (ids : List ℕ)
    (h : ∀ i ∈ ids, ∃ o, attemptInsert ln (mins.getD i PyVal.none)
      (maxs.getD i PyVal.none) (wxs.getD i PyVal.none) = .ok o) :
    ∃ os, agrDayLoop ln mins maxs wxs ids = .ok os ∧ os.length = ids.length := by
  induction ids with
  | nil => exact ⟨[], rfl, rfl⟩
  | cons i is ih =>
      obtain ⟨o, ho⟩ := h i (by simp)
      obtain ⟨os, hos, hlen⟩ := ih (fun j hj => h j (by simp [hj]))
      exact ⟨o :: os, by simp only [agrDayLoop, ho, hos], by simp [hlen]⟩

theorem agrDayLoop_map (ln : PyVal) (mins maxs wxs : List PyVal)
    (ids : List ℕ) (f : ℕ → Option Row)
    (h : ∀ i ∈ ids, attemptInsert ln (mins.getD i PyVal.none)
      (maxs.getD i PyVal.none) (wxs.getD i PyVal.none) = .ok (f i)) :
    agrDayLoop ln mins maxs wxs ids = .ok (ids.map f) := by
  induction ids with
  | nil => rfl
  | cons i is ih =>
      have hi := h i (by simp)
      have hrest := ih (fun j hj => h j (by simp [hj]))
      simp only [agrDayLoop, hi, hrest, List.map_cons]

theorem attemptInsert_wf (name d : String) (t1 t2 : ℚ) (w : String) :
    attemptInsert (.str name) (mkTempDay d (.num t1)) (mkTempDay d (.num t2))
      (mkWxDay d (.str w)) =
    .ok (some ⟨.str name, .str d, some t1, some t2, .str w⟩) := by
  unfold attemptInsert
  simp only [mkTempDay, mkWxDay, PyVal.getD, ok_ite, List.lookup]
  simp [tryInsertAgr, coerceTemp, pyFloat, pyCatch, sqliteInsert, bindable]

theorem mkAgrEntry_loc (name : String) (m1 m2 m3 : List PyVal) :
    (mkAgrEntry name m1 m2 m3).getD "locationName" PyVal.none =
      .ok (.str name) := rfl

theorem mkAgrEntry_elems (name : String) (m1 m2 m3 : List PyVal) :
    (mkAgrEntry name m1 m2 m3).getD "weatherElements" (.dict []) =
      .ok (.dict [("MinT", .dict [("daily", .list m1)]),
                  ("MaxT", .dict [("daily", .list m2)]),
                  ("Wx", .dict [("daily", .list m3)])]) := rfl

theorem elems_MinT (m1 m2 m3 : List PyVal) :
    (PyVal.dict [("MinT", .dict [("daily", .list m1)]),
                 ("MaxT", .dict [("daily", .list m2)]),
                 ("Wx", .dict [("daily", .list m3)])]).getD "MinT" PyVal.none =
      .ok (.dict [("daily", .list m1)]) := rfl

theorem elems_MaxT (m1 m2 m3 : List PyVal) :
    (PyVal.dict [("MinT", .dict [("daily", .list m1)]),
                 ("MaxT", .dict [("daily", .list m2)]),
                 ("Wx", .dict [("daily", .list m3)])]).getD "MaxT" PyVal.none =
      .ok (.dict [("daily", .list m2)]) := rfl

theorem elems_Wx (m1 m2 m3 : List PyVal) :
    (PyVal.dict [("MinT", .dict [("daily", .list m1)]),
                 ("MaxT", .dict [("daily", .list m2)]),
                 ("Wx", .dict [("daily", .list m3)])]).getD "Wx" PyVal.none =
      .ok (.dict [("daily", .list m3)]) := rfl

theorem extract_daily (m : List PyVal) :
    extract_temperature (.dict [("daily", .list m)]) =
      .ok (some (m.filter PyVal.isDict)) := rfl

theorem processAgrEntry_mk (name : String) (mins maxs wxs : List PyVal)
    (h1 : mins.all PyVal.isDict = true) (h2 : maxs.all PyVal.isDict = true)
    (h3 : wxs.all PyVal.isDict = true)
    (hn1 : mins.isEmpty = false) (hn2 : maxs.isEmpty = false)
    (hn3 : wxs.isEmpty = false) :
    ∃ attempts,
      processAgrEntry (mkAgrEntry name mins maxs wxs) = .ok (some attempts) ∧
      attempts.length = min mins.length (min maxs.length wxs.length) := by
  have hf1 : mins.filter PyVal.isDict = mins :=
    List.filter_eq_self.mpr (fun a ha => List.all_eq_true.mp h1 a ha)
  have hf2 : maxs.filter PyVal.isDict = maxs :=
    List.filter_eq_self.mpr (fun a ha => List.all_eq_true.mp h2 a ha)
  have hf3 : wxs.filter PyVal.isDict = wxs :=
    List.filter_eq_self.mpr (fun a ha => List.all_eq_true.mp h3 a ha)
  obtain ⟨os, hos, hlen⟩ := agrDayLoop_ok_length (.str name) mins maxs wxs
      (List.range (min mins.length (min maxs.length wxs.length)))
      (fun i hi => by
        have hi' := List.mem_range.mp hi
        apply attemptInsert_isOk
        · exact List.all_eq_true.mp h1 _ (getD_mem mins i PyVal.none
            (lt_of_lt_of_le hi' (Nat.min_le_left _ _)))
        · exact List.all_eq_true.mp h2 _ (getD_mem maxs i PyVal.none
            (lt_of_lt_of_le hi' (le_trans (Nat.min_le_right _ _) (Nat.min_le_left _ _))))
        · exact List.all_eq_true.mp h3 _ (getD_mem wxs i PyVal.none
            (lt_of_lt_of_le hi' (le_trans (Nat.min_le_right _ _) (Nat.min_le_right _ _)))))
  refine ⟨os, ?_, by rw [hlen, List.length_range]⟩
  have ht1 : seriesTruthy (some mins) = true := by
    cases mins with
    | nil => exact absurd hn1 (by simp)
    | cons a l => rfl
  have ht2 : seriesTruthy (some maxs) = true := by
    cases maxs with
    | nil => exact absurd hn2 (by simp)
    | cons a l => rfl
  have ht3 : seriesTruthy (some wxs) = true := by
    cases wxs with
    | nil => exact absurd hn3 (by simp)
    | cons a l => rfl
  simp only [processAgrEntry, mkAgrEntry_loc, mkAgrEntry_elems, elems_MinT,
    elems_MaxT, elems_Wx, extract_daily, hf1, hf2, hf3, ht1, ht2, ht3,
    Bool.true_and, Bool.and_self, Bool.not_true, Bool.false_eq_true, if_false,
    Option.getD_some, hos]

theorem processAgrEntry_wf (name : String)
    (days : List (String × ℚ × ℚ × String)) (hne : days ≠ []) :
    processAgrEntry (mkWfEntry name days) =
      .ok (some (days.map (fun p => some (wfRow name p)))) := by
  have hd : ∀ i ∈ List.range days.length,
      attemptInsert (.str name)
        ((days.map (fun p => mkTempDay p.1 (.num p.2.1))).getD i PyVal.none)
        ((days.map (fun p => mkTempDay p.1 (.num p.2.2.1))).getD i PyVal.none)
        ((days.map (fun p => mkWxDay p.1 (.str p.2.2.2))).getD i PyVal.none) =
      .ok ((fun i => some (wfRow name (days.getD i ("", 0, 0, "")))) i) := by
    intro i hi
    have hi' := List.mem_range.mp hi
    rw [getD_map days ("", 0, 0, "") _ i hi', getD_map days ("", 0, 0, "") _ i hi',
        getD_map days ("", 0, 0, "") _ i hi']
    exact attemptInsert_wf name (days.getD i ("", 0, 0, "")).1
      (days.getD i ("", 0, 0, "")).2.1 (days.getD i ("", 0, 0, "")).2.2.1
      (days.getD i ("", 0, 0, "")).2.2.2
  have hloop := agrDayLoop_map (.str name) _ _ _ (List.range days.length) _ hd
  have ht : ∀ (g : (String × ℚ × ℚ × String) → PyVal),
      seriesTruthy (some (days.map g)) = true := fun g => by
    cases days with
    | nil => exact absurd rfl hne
    | cons a l => rfl
  unfold mkWfEntry
  simp only [processAgrEntry, mkAgrEntry_loc, mkAgrEntry_elems, elems_MinT,
    elems_MaxT, elems_Wx, extract_daily,
    filter_isDict_map days (fun p => mkTempDay p.1 (.num p.2.1)) (fun x => rfl),
    filter_isDict_map days (fun p => mkTempDay p.1 (.num p.2.2.1)) (fun x => rfl),
    filter_isDict_map days (fun p => mkWxDay p.1 (.str p.2.2.2)) (fun x => rfl),
    ht, Bool.true_and, Bool.and_self, Bool.not_true, Bool.false_eq_true,
    if_false, Option.getD_some, List.length_map, Nat.min_self, hloop,
    range_map_getD days ("", 0, 0, "") (fun p => some (wfRow name p))]

theorem processAgrEntries_wf (eds : List (String × List (String × ℚ × ℚ × String)))
    (h : ∀ p ∈ eds, p.2 ≠ []) :
    processAgrEntries (eds.map (fun p => mkWfEntry p.1 p.2)) =
      .ok ((eds.map (fun p => p.2.map (wfRow p.1))).flatten, 0, 0) := by
  induction eds with
  | nil => rfl
  | cons p eds ih =>
      have hp := processAgrEntry_wf p.1 p.2 (h p (by simp))
      have hrest := ih (fun q hq => h q (by simp [hq]))
      have hfm : (p.2.map (fun q => some (wfRow p.1 q))).filterMap id =
          p.2.map (wfRow p.1) := by
        rw [List.filterMap_map]
        exact congrFun (List.filterMap_eq_map (wfRow p.1)) p.2
      have hcp : (p.2.map (fun q => some (wfRow p.1 q))).countP Option.isNone = 0 := by
        simp [List.countP_eq_zero]
      simp only [List.map_cons, processAgrEntries, hp, hrest, List.flatten_cons,
        hfm, hcp, Nat.zero_add]

theorem join_length_const (M : ℕ)
    (eds : List (String × List (String × ℚ × ℚ × String)))
    (h : ∀ p ∈ eds, p.2.length = M) :
    ((eds.map (fun p => p.2.map (wfRow p.1))).flatten).length = eds.length * M := by
  induction eds with
  | nil => simp
  | cons p eds ih =>
      simp only [List.map_cons, List.flatten_cons, List.length_append,
        List.length_map, List.length_cons]
      rw [h p (by simp), ih (fun q hq => h q (by simp [hq]))]
      ring

/-- C1: for an agricultural location whose three weather-element series
are present as non-empty lists of day dicts, projection attempts exactly
`min |MinT.daily| (min |MaxT.daily| |Wx.daily|)` records; and for a
well-formed payload family of N locations, each with M aligned fully
numeric daily entries, the batch inserts exactly N×M records with no
failures and no skips. -/
theorem C1_record_counts :
    (∀ (name : String) (mins maxs wxs : List PyVal),
      mins.all PyVal.isDict = true → maxs.all PyVal.isDict = true →
      wxs.all PyVal.isDict = true →
      mins.isEmpty = false → maxs.isEmpty = false → wxs.isEmpty = false →
      ∃ attempts,
        processAgrEntry (mkAgrEntry name mins maxs wxs) = .ok (some attempts) ∧
        attempts.length = min mins.length (min maxs.length wxs.length)) ∧
    (∀ (M : ℕ) (eds : List (String × List (String × ℚ × ℚ × String))),
      0 < M → (∀ p ∈ eds, p.2.length = M) →
      ∃ rows,
        processAgrEntries (eds.map (fun p => mkWfEntry p.1 p.2)) =
          .ok (rows, 0, 0) ∧
        rows.length = eds.length * M) := by
  constructor
  · exact processAgrEntry_mk
  · intro M eds hM h
    have hne : ∀ p ∈ eds, p.2 ≠ [] := by
      intro p hp hnil
      have hl := h p hp
      rw [hnil] at hl
      simp at hl
      omega
    exact ⟨_, processAgrEntries_wf eds hne, join_length_const M eds h⟩

/-- C1 witness: the 5/5/3 location yields exactly 3 attempted records,
and a 1-location 1-day well-formed batch inserts exactly 1×1 records. -/
theorem C1_record_counts_witness :
    (∃ attempts, processAgrEntry entry553 = .ok (some attempts) ∧
      attempts.length = 3) ∧
    (∃ rows,
      processAgrEntries ([("竹北", [("2024-01-01", (10 : ℚ), (20 : ℚ), "晴")])].map
        (fun p => mkWfEntry p.1 p.2)) = .ok (rows, 0, 0) ∧ rows.length = 1) := by
  constructor
  · obtain ⟨a, ha, hl⟩ := C1_record_counts.1 "嘉義"
      ((List.range 5).map (fun i => mkTempDay (toString i) (.num 10)))
      ((List.range 5).map (fun i => mkTempDay (toString i) (.num 20)))
      ((List.range 3).map (fun i => mkWxDay (toString i) (.str "晴")))
      (by decide) (by decide) (by decide) (by decide) (by decide) (by decide)
    exact ⟨a, ha, hl.trans (by decide)⟩
  · obtain ⟨rows, hr, hl⟩ := C1_record_counts.2 1
      [("竹北", [("2024-01-01", (10 : ℚ), (20 : ℚ), "晴")])] (by decide)
      (by decide)
    exact ⟨rows, hr, hl⟩

/-! ## C8 — the "all locations" averages -/

theorem length_filterMap_all (rows : List StoredRow) (f : StoredRow → Option ℚ)
    (h : ∀ r ∈ rows, (f r).isSome = true) :
    (rows.filterMap f).length = rows.length := by
  induction rows with
  | nil => rfl
  | cons r rows ih =>
      cases hf : f r with
      | none =>
          have := h r (by simp)
          rw [hf] at this
          simp at this
      | some q =>
          simp only [List.filterMap_cons, hf, List.length_cons]
          rw [ih (fun r' hr' => h r' (by simp [hr']))]

theorem pandasMean_sorted (rows sorted : List StoredRow) (f : StoredRow → Option ℚ)
    (hperm : sorted.Perm rows)
    (h : ∀ r ∈ rows, (f r).isSome = true) (hne : rows ≠ []) :
    pandasMean (sorted.map f) = some ((rows.filterMap f).sum / (rows.length : ℚ)) := by
  have hflen : (rows.filterMap f).length = rows.length := length_filterMap_all rows f h
  have hp : (sorted.filterMap f).Perm (rows.filterMap f) := hperm.filterMap f
  have hsum : (sorted.filterMap f).sum = (rows.filterMap f).sum := hp.sum_eq
  have hlen : (sorted.filterMap f).length = rows.length := hp.length_eq.trans hflen
  have hemp : (sorted.filterMap f).isEmpty = false := by
    cases hcase : sorted.filterMap f with
    | nil =>
        rw [hcase] at hlen
        have h0 : rows.length = 0 := hlen.symm
        rw [List.length_eq_zero] at h0
        exact absurd h0 hne
    | cons a l => rfl
  simp only [pandasMean, List.filterMap_map, Function.id_comp, hemp,
    Bool.false_eq_true, if_false, hsum, hlen]

/-- C8: for a non-empty stored table with all temperatures present, the
"all locations" view's reported averages equal the arithmetic mean of
all stored `min_temp` values and of all stored `max_temp` values
(sorting the frame first does not change the mean). -/
theorem C8_all_locations_mean (parse : String → Option ℤ) (rows : List StoredRow)
    (hne : rows ≠ [])
    (hmin : ∀ r ∈ rows, r.min_temp.isSome = true)
    (hmax : ∀ r ∈ rows, r.max_temp.isSome = true) :
    (allView parse rows).avgMin =
      some ((rows.filterMap (fun r => r.min_temp)).sum / (rows.length : ℚ)) ∧
    (allView parse rows).avgMax =
      some ((rows.filterMap (fun r => r.max_temp)).sum / (rows.length : ℚ)) := by
  constructor
  · simp only [allView]
    by_cases hok : datesOk parse rows = true
    · simp only [hok, if_true]
      exact pandasMean_sorted rows _ _ (List.mergeSort_perm rows _) hmin hne
    · rw [Bool.not_eq_true] at hok
      simp only [hok, Bool.false_eq_true, if_false]
      exact pandasMean_sorted rows _ _ (List.mergeSort_perm rows _) hmin hne
  · simp only [allView]
    by_cases hok : datesOk parse rows = true
    · simp only [hok, if_true]
      exact pandasMean_sorted rows _ _ (List.mergeSort_perm rows _) hmax hne
    · rw [Bool.not_eq_true] at hok
      simp only [hok, Bool.false_eq_true, if_false]
      exact pandasMean_sorted rows _ _ (List.mergeSort_perm rows _) hmax hne

/-- C8 witness: a concrete two-row table. -/
theorem C8_all_locations_mean_witness :
    (allView parseIso [srow1, srow2]).avgMin =
      some ((([srow1, srow2].filterMap (fun r => r.min_temp)).sum) /
        (([srow1, srow2].length : ℕ) : ℚ)) :=
  (C8_all_locations_mean parseIso [srow1, srow2] (by simp) (by decide)
    (by decide)).1

/-! ## C9 — graceful degradation on date-parse failure -/

/-- C9: when any stored `forecast_date` fails to parse, the dashboard
falls into the `except` branch: dates stay unparsed (no `strftime`
reformatting), the rows are displayed ordered only by the raw strings
(not by date), the chart is not rendered and the fallback notice is
shown instead; the whole view is a total function — no exception
escapes. -/
theorem C9_parse_failure_degrades (parse : String → Option ℤ)
    (rows : List StoredRow) (hne : rows ≠ [])
    (hfail : ∃ r ∈ rows, parse r.forecast_date = Option.none) :
    (allView parse rows).parsedDates = false ∧
    (allView parse rows).datesFormatted = false ∧
    (allView parse rows).fallbackNotice = true ∧
    (allView parse rows).chartShown = false ∧
    (allView parse rows).displayed = rows.mergeSort rawLe := by
  have hok : datesOk parse rows = false := by
    obtain ⟨r, hr, hp⟩ := hfail
    cases hall : rows.all (fun r => (parse r.forecast_date).isSome) with
    | false => exact hall
    | true =>
        have := List.all_eq_true.mp hall r hr
        rw [hp] at this
        simp at this
  refine ⟨?_, ?_, ?_, ?_, ?_⟩ <;> simp [allView, hok]

/-- C9 witness: a concrete table with one unparseable date. -/
theorem C9_parse_failure_degrades_witness :
    (allView parseIso [srow1, srow3]).parsedDates = false ∧
    (allView parseIso [srow1, srow3]).fallbackNotice = true ∧
    (allView parseIso [srow1, srow3]).chartShown = false :=
  have h := C9_parse_failure_degrades parseIso [srow1, srow3] (by simp)
    ⟨srow3, by simp, rfl⟩
  ⟨h.1, h.2.2.1, h.2.2.2.1⟩
